import Mathlib

/-!
Formal model of the taco-bell-voice-agent repository (shallow embedding).

The definitions below are translated from the Python sources:
  * `src/src/conversation_manager_v2.py` — `OrderItem`, `Order`,
    `EnhancedConversationManager.process_input` and its helpers;
  * `src/src/error_handler.py` — `ErrorHandler`, `ConversationRepair`;
  * `src/src/menu_rag.py` — `MenuItem`, the hard-coded catalog,
    `TacoBellMenuRAG.search_menu`, `get_recommendations`.

Modelling conventions: Python floats (prices, scores, confidences) are
modelled as rationals `ℚ`, with decimal constants written via `mkRat`
(so `1.49` becomes `mkRat 149 100`); Python dictionaries keyed by enum or
string are modelled as total functions or ordered folds reproducing dict
insertion / overwrite order; wall-clock values (`datetime.now`,
`time.time`, sleeps) are omitted because no modelled observable depends
on them; calls into external services (the OpenAI intent detector, the
sentence-transformer semantic encoder) are abstracted as explicit
function parameters; code that raises a Python exception is modelled
with `Except`.  Python string helpers (`str.lower`, `str.strip`,
`str.split`, the `in` substring test) are re-implemented on the
character-list representation of `String`.
-/

/-- Single-quote character (U+0027), used to build string literals that
contain an apostrophe. -/
def apos : String := String.singleton (Char.ofNat 39)

/-- Python's `str.lower()` (per-character lowercasing). -/
def strToLower (s : String) : String := ⟨s.data.map Char.toLower⟩

/-- Python's substring test `needle in hay` on lists of characters. -/
def listIsSub (needle : List Char) : List Char → Bool
  | [] => needle.isEmpty
  | c :: rest => needle.isPrefixOf (c :: rest) || listIsSub needle rest

/-- Python's substring test `needle in hay` on strings. -/
def strContains (hay needle : String) : Bool :=
  listIsSub needle.data hay.data

/-- Python's falsiness test `not s or not s.strip()`: the string is empty
or consists of whitespace only. -/
def strBlank (s : String) : Bool :=
  s.data.all Char.isWhitespace

/-- Python's `str.split()` with no argument: split on whitespace runs,
dropping empty fragments. -/
def strWords (s : String) : List String :=
  ((s.data.splitOnP Char.isWhitespace).filter (fun w => ¬w.isEmpty)).map
    (fun w => ⟨w⟩)

/-! ### Order model — `conversation_manager_v2.py`, `OrderItem` / `Order` -/

/-- `OrderItem` dataclass (`conversation_manager_v2.py` lines 41-57);
`price` is a rational standing for the Python float. -/
structure OrderItem where
  name : String
  quantity : Nat
  price : ℚ
  modifications : List String := []
  confirmed : Bool := false
  confidence : ℚ := 1
  deriving DecidableEq

/-- `OrderItem.get_total_price` (lines 51-52): `self.price * self.quantity`. -/
def OrderItem.getTotalPrice (it : OrderItem) : ℚ :=
  it.price * (it.quantity : ℚ)

/-- `Order` dataclass (lines 59-66).  `created_at` (a wall-clock datetime
never read by the modelled operations) is omitted. -/
structure Order where
  items : List OrderItem := []
  status : String := "active"
  specialRequests : List String := []
  pendingClarification : Option String := none
  deriving DecidableEq

/-- A fresh `Order()` as constructed by the manager. -/
def emptyOrder : Order := {}

/-- The loop body of `Order.add_item` (lines 68-74): scan the item list;
the first line with equal `name` and equal `modifications` absorbs the
incoming quantity, otherwise the item is appended at the end. -/
def addItemList : List OrderItem → OrderItem → List OrderItem
  | [], it => [it]
  | e :: rest, it =>
    if e.name = it.name ∧ e.modifications = it.modifications then
      { e with quantity := e.quantity + it.quantity } :: rest
    else
      e :: addItemList rest it

/-- `Order.add_item` (lines 68-74). -/
def Order.addItem (o : Order) (it : OrderItem) : Order :=
  { o with items := addItemList o.items it }

/-- The loop of `Order.remove_item` (lines 76-82): pop the first line whose
lowercased name equals the lowercased argument; `none` when no line
matches. -/
def removeFirstLower : List OrderItem → String → Option (List OrderItem)
  | [], _ => none
  | e :: rest, nm =>
    if strToLower e.name = strToLower nm then
      some rest
    else
      match removeFirstLower rest nm with
      | some l => some (e :: l)
      | none => none

/-- `Order.remove_item` (lines 76-82): returns the Python boolean result
together with the updated order. -/
def Order.removeItem (o : Order) (nm : String) : Bool × Order :=
  match removeFirstLower o.items nm with
  | some l => (true, { o with items := l })
  | none => (false, o)

/-- `Order.get_total` (lines 84-86): `sum(item.get_total_price() ...)`. -/
def Order.getTotal (o : Order) : ℚ :=
  (o.items.map OrderItem.getTotalPrice).sum

/-- One mutating operation on an order, for stating invariants over
arbitrary interleavings of `add_item` / `remove_item`. -/
inductive OrderOp where
  | add : OrderItem → OrderOp
  | remove : String → OrderOp

/-- Apply one operation. -/
def applyOp (o : Order) : OrderOp → Order
  | .add it => o.addItem it
  | .remove nm => (o.removeItem nm).2

/-- Run a sequence of operations on a fresh order. -/
def runOps (ops : List OrderOp) : Order :=
  ops.foldl applyOp emptyOrder

/-- Whether two order lines share the merge identity used by
`Order.add_item`: same `name` (case-sensitive) and same modification
list. -/
def sameIdent (a b : OrderItem) : Bool :=
  decide (a.name = b.name ∧ a.modifications = b.modifications)

/-- Sample line used by concrete instances: Crunchy Taco at $1.49. -/
def tacoLine (q : Nat) : OrderItem :=
  { name := "Crunchy Taco", quantity := q, price := mkRat 149 100 }

/-- Sample line used by concrete instances: Baja Blast at $2.29. -/
def bajaLine (q : Nat) : OrderItem :=
  { name := "Baja Blast", quantity := q, price := mkRat 229 100 }

/-! ### Error handling — `error_handler.py` -/

/-- `ErrorType` enum (`error_handler.py` lines 14-25).  Note the enum has
no `CRITICAL` member; `ErrorSeverity` does. -/
inductive ErrorType where
  | asrFailure
  | asrLowConfidence
  | apiTimeout
  | apiRateLimit
  | networkError
  | menuItemNotFound
  | ambiguousOrder
  | emptyOrderKind
  | invalidState
  | unknownError
  deriving DecidableEq

/-- `ErrorSeverity` enum (lines 27-32). -/
inductive ErrorSeverity where
  | low
  | medium
  | high
  | critical
  deriving DecidableEq

/-- `ErrorContext` dataclass (lines 34-43). -/
structure ErrorContext where
  errorType : ErrorType
  severity : ErrorSeverity
  message : String
  retryCount : Nat := 0
  maxRetries : Nat := 3
  userFacingMessage : Option String := none
  recoveryAction : Option String := none

/-- The `recovery_strategies` dict (lines 54-63): a strategy is registered
for eight error kinds and absent for `INVALID_STATE` / `UNKNOWN_ERROR`.
Every registered strategy returns `True` (lines 140-189); their sleeps are
side effects with no modelled observable. -/
def recoveryStrategies : ErrorType → Option (ErrorContext → Bool)
  | .asrFailure => some (fun _ => true)
  | .asrLowConfidence => some (fun _ => true)
  | .apiTimeout => some (fun _ => true)
  | .apiRateLimit => some (fun _ => true)
  | .networkError => some (fun _ => true)
  | .menuItemNotFound => some (fun _ => true)
  | .ambiguousOrder => some (fun _ => true)
  | .emptyOrderKind => some (fun _ => true)
  | .invalidState => none
  | .unknownError => none

/-- The `user_messages` dict (lines 66-75). -/
def userMessages : ErrorType → Option String
  | .asrFailure => some ("I didn" ++ apos ++ "t catch that. Could you repeat?")
  | .asrLowConfidence =>
      some ("Sorry, I didn" ++ apos ++ "t quite hear that. What did you say?")
  | .apiTimeout => some "Give me just a second..."
  | .apiRateLimit => some "One moment please..."
  | .networkError => some "Having a little technical issue. Let me try that again."
  | .menuItemNotFound =>
      some ("I couldn" ++ apos ++ "t find that on our menu. What else can I get you?")
  | .ambiguousOrder => some "Just to clarify - what would you like?"
  | .emptyOrderKind => some "What can I get started for you today?"
  | .invalidState => none
  | .unknownError => none

/-- Fallback of `self.user_messages.get(...)` in `handle_error` (line 98). -/
def defaultUserMessage : String := "Let me try that again."

/-- The max-retries message of `handle_error` (line 110). -/
def escalationMessage : String :=
  "I" ++ apos ++ "m having trouble processing that. Let" ++ apos ++ "s try something else."

/-- `_track_error` (lines 114-120) on the `error_counts` dict (the
`last_error_time` wall-clock dict is omitted). -/
def bumpCount (counts : ErrorType → Nat) (t : ErrorType) : ErrorType → Nat :=
  fun u => if u = t then counts u + 1 else counts u

/-- `ErrorHandler.handle_error` (lines 79-112): updates the per-kind error
count and returns the `(success, user_message)` pair.  The user message is
`error_context.user_facing_message or self.user_messages.get(...)`, so an
empty explicit message falls back to the static per-kind message (Python
truthiness of `or`). -/
def handleError (counts : ErrorType → Nat) (ctx : ErrorContext) :
    (ErrorType → Nat) × Bool × String :=
  let counts2 := bumpCount counts ctx.errorType
  let userMessage :=
    match ctx.userFacingMessage with
    | some s => if s = "" then (userMessages ctx.errorType).getD defaultUserMessage else s
    | none => (userMessages ctx.errorType).getD defaultUserMessage
  match recoveryStrategies ctx.errorType with
  | some strat =>
    if ctx.retryCount < ctx.maxRetries then (counts2, strat ctx, userMessage)
    else (counts2, false, escalationMessage)
  | none =>
    if ctx.maxRetries ≤ ctx.retryCount then (counts2, false, escalationMessage)
    else (counts2, false, userMessage)

/-- The Python exception raised by `should_escalate` when it evaluates
`ErrorType.CRITICAL` (line 215): `ErrorType` has no member `CRITICAL`, so
the attribute access raises `AttributeError`. -/
def criticalAttributeError : String :=
  "AttributeError: CRITICAL is not a member of ErrorType"

/-- `ErrorHandler.should_escalate` (lines 205-218).  When the per-kind
count is at least 5 it returns `True` before the faulty line is reached;
otherwise control reaches `error_type == ErrorType.CRITICAL`, whose
attribute access raises (modelled as `Except.error`), so the function can
never return `False`. -/
def shouldEscalate (counts : ErrorType → Nat) (t : ErrorType) : Except String Bool :=
  if 5 ≤ counts t then Except.ok true
  else Except.error criticalAttributeError

/-! ### Conversation repair and manager — `error_handler.py` lines
262-330, `conversation_manager_v2.py` lines 103-226 -/

/-- The `confusion_signals` list of
`ConversationRepair.detect_confusion_signals` (lines 312-315). -/
def confusionSignals : List String :=
  ["what", "huh", "wait", "uh", "um", "confused",
   "don" ++ apos ++ "t understand", "not sure", "i don" ++ apos ++ "t know"]

/-- `detect_confusion_signals` (lines 310-318): lowercase the text and test
each signal for substring membership. -/
def detectConfusionSignals (text : String) : Bool :=
  confusionSignals.any (fun s => strContains (strToLower text) s)

/-- `suggest_recovery_path` (lines 320-330): static per-state suggestion
table, keyed by the state's string value, with a generic fallback. -/
def suggestRecoveryPath (stateVal : String) : String :=
  if stateVal = "greeting" then
    "Let" ++ apos ++ "s start over. Welcome to Taco Bell! What can I get you?"
  else if stateVal = "taking_order" then
    "No problem! What would you like to order?"
  else if stateVal = "confirming_item" then
    "Let me know what you" ++ apos ++ "d like, and I" ++ apos ++
      "ll make sure I get it right."
  else if stateVal = "order_complete" then
    "Your order is ready. Would you like to change anything?"
  else
    "Let" ++ apos ++ "s try that again. What can I help you with?"

/-- `ConversationState` enum (`conversation_manager_v2.py` lines 29-39). -/
inductive ConversationState where
  | greeting
  | takingOrder
  | confirmingItem
  | modifyingOrder
  | orderComplete
  | clarifying
  | errorRecovery
  | payment
  | goodbye
  deriving DecidableEq

/-- The `.value` string of each `ConversationState` member. -/
def ConversationState.value : ConversationState → String
  | .greeting => "greeting"
  | .takingOrder => "taking_order"
  | .confirmingItem => "confirming_item"
  | .modifyingOrder => "modifying_order"
  | .orderComplete => "order_complete"
  | .clarifying => "clarifying"
  | .errorRecovery => "error_recovery"
  | .payment => "payment"
  | .goodbye => "goodbye"

/-- The mutable fields of `EnhancedConversationManager` read or written by
the control flow of `process_input` (lines 106-124): conversation state,
order, consecutive-error counter, last successful state, and the error
handler's per-kind counts.  The conversation history list affects no
modelled observable and is omitted. -/
structure ManagerState where
  state : ConversationState := .greeting
  order : Order := emptyOrder
  consecutiveErrors : Nat := 0
  lastSuccessfulState : ConversationState := .greeting
  errorCounts : ErrorType → Nat := fun _ => 0

/-- `self.max_consecutive_errors` (line 122). -/
def maxConsecutiveErrors : Nat := 3

/-- The repeated-failure warning of `_handle_empty_input` (line 224). -/
def troubleHearingMessage : String :=
  "I" ++ apos ++ "m having trouble hearing you. Is everything okay?"

/-- `_handle_empty_input` (lines 210-226): bump the consecutive-error
counter, run `handle_error` on an `ASR_FAILURE` context carrying the new
counter as retry count, and answer with the warning once the counter
reaches `max_consecutive_errors` (the state is left untouched). -/
def handleEmptyInput (st : ManagerState) : String × ManagerState :=
  let errs := st.consecutiveErrors + 1
  let r := handleError st.errorCounts
    { errorType := .asrFailure, severity := .low,
      message := "No input received", retryCount := errs }
  let st2 := { st with consecutiveErrors := errs, errorCounts := r.1 }
  if maxConsecutiveErrors ≤ errs then (troubleHearingMessage, st2)
  else (r.2.2, st2)

/-- `_handle_intent_failure` (lines 273-286): bump the counter and answer
with the `handle_error` message for an `API_TIMEOUT` context. -/
def handleIntentFailure (st : ManagerState) : String × ManagerState :=
  let errs := st.consecutiveErrors + 1
  let r := handleError st.errorCounts
    { errorType := .apiTimeout, severity := .high,
      message := "Intent detection failed", retryCount := errs }
  (r.2.2, { st with consecutiveErrors := errs, errorCounts := r.1 })

/-- The tail of `process_input` (lines 154-177) after the empty-input,
low-confidence and confusion checks: obtain the intent (abstracted as the
`detectIntent` outcome of `_get_intent_with_retry`, which calls the OpenAI
service), dispatch to `_handle_state_intent` (abstracted as `handle`), and
on success reset the consecutive-error counter to `0` and record the
resulting state as last successful state. -/
def afterConfusionCheck {ι : Type} (detectIntent : Option ι)
    (handle : ι → ManagerState → String × ManagerState)
    (st : ManagerState) : String × ManagerState :=
  match detectIntent with
  | none => handleIntentFailure st
  | some ir =>
    let r := handle ir st
    (r.1, { r.2 with consecutiveErrors := 0, lastSuccessfulState := r.2.state })

/-- `process_input` (lines 127-180).  `lowConfHandle` abstracts
`_handle_low_confidence_input` (lines 228-259, which calls the intent
service and a random clarification template); `detectIntent` and `handle`
abstract the intent service call and `_handle_state_intent`. -/
def processInput {ι : Type}
    (lowConfHandle : ManagerState → String → ℚ → String × ManagerState)
    (detectIntent : Option ι)
    (handle : ι → ManagerState → String × ManagerState)
    (st : ManagerState) (input : String) (confidence : ℚ) :
    String × ManagerState :=
  if strBlank input then handleEmptyInput st
  else if confidence < mkRat 1 2 then lowConfHandle st input confidence
  else if detectConfusionSignals input then
    (suggestRecoveryPath st.state.value, { st with state := .errorRecovery })
  else afterConfusionCheck detectIntent handle st

/-- A fresh manager as built by `__init__`. -/
def initialManagerState : ManagerState := {}

/-- Trivial stand-in for `_handle_low_confidence_input`, used by concrete
instances. -/
def dummyLowConf : ManagerState → String → ℚ → String × ManagerState :=
  fun st _ _ => ("", st)

/-- Trivial stand-in for `_handle_state_intent`, used by concrete
instances: it answers and moves to `TAKING_ORDER`. -/
def dummyHandle : Unit → ManagerState → String × ManagerState :=
  fun _ st => ("ok", { st with state := .takingOrder })

/-- The confusion lexicon exactly as the specification lists it (it lacks
"uh", "um" and lists "don't know" where the code has "i don't know"). -/
def claimedConfusionLexicon : List String :=
  ["what", "huh", "wait", "confused", "don" ++ apos ++ "t understand",
   "not sure", "don" ++ apos ++ "t know"]

/-! ### Menu retrieval — `menu_rag.py` -/

/-- `MenuItem` dataclass (`menu_rag.py` lines 14-24). -/
structure MenuItem where
  name : String
  category : String
  price : ℚ
  description : String
  calories : Nat
  customizations : List String
  aliases : List String
  tags : List String
  deriving DecidableEq

/-- `SearchResult` dataclass (lines 26-31). -/
structure SearchResult where
  item : MenuItem
  score : ℚ
  reason : String
  deriving DecidableEq

/-- Catalog entry (lines 60-69). -/
def crunchyTacoItem : MenuItem :=
  { name := "Crunchy Taco", category := "Tacos", price := mkRat 149 100,
    description := "A crunchy corn shell filled with seasoned beef, lettuce, and cheese",
    calories := 170,
    customizations := ["no lettuce", "extra cheese", "add sour cream", "no cheese"],
    aliases := ["hard taco", "regular taco", "crispy taco", "crunchy"],
    tags := ["crunchy", "beef", "cheap", "classic", "corn shell"] }

/-- Catalog entry (lines 70-79). -/
def softTacoItem : MenuItem :=
  { name := "Soft Taco", category := "Tacos", price := mkRat 149 100,
    description := "A warm flour tortilla filled with seasoned beef, lettuce, and cheese",
    calories := 180,
    customizations := ["no lettuce", "extra cheese", "add tomatoes", "no cheese"],
    aliases := ["flour taco", "regular soft taco"],
    tags := ["soft", "beef", "cheap", "classic", "flour tortilla"] }

/-- Catalog entry (lines 80-89). -/
def crunchyTacoSupremeItem : MenuItem :=
  { name := "Crunchy Taco Supreme", category := "Tacos", price := mkRat 199 100,
    description := "Crunchy taco with seasoned beef, lettuce, cheese, tomatoes, and sour cream",
    calories := 190,
    customizations := ["no sour cream", "no tomatoes", "extra cheese"],
    aliases := ["supreme taco", "deluxe taco", "loaded taco"],
    tags := ["crunchy", "beef", "supreme", "sour cream", "tomatoes", "upgraded"] }

/-- Catalog entry (lines 90-99). -/
def doritosLocosTacosItem : MenuItem :=
  { name := "Doritos Locos Tacos", category := "Tacos", price := mkRat 219 100,
    description := "Taco with a Nacho Cheese Doritos shell",
    calories := 170,
    customizations := ["cool ranch", "fiery", "nacho cheese"],
    aliases := ["DLT", "dorito taco", "nacho taco", "doritos taco"],
    tags := ["crunchy", "beef", "doritos", "nacho", "specialty", "cheese shell",
             "spicy option"] }

/-- Catalog entry (lines 102-111). -/
def beanBurritoItem : MenuItem :=
  { name := "Bean Burrito", category := "Burritos", price := mkRat 129 100,
    description := "Warm flour tortilla filled with refried beans, cheese, and onions",
    calories := 350,
    customizations := ["no onions", "add rice", "extra cheese", "add jalapenos"],
    aliases := ["beans burrito", "vegetarian burrito", "veggie burrito"],
    tags := ["vegetarian", "beans", "cheapest", "no meat", "budget", "value"] }

/-- Catalog entry (lines 112-121). -/
def beefBurritoItem : MenuItem :=
  { name := "Beef Burrito", category := "Burritos", price := mkRat 179 100,
    description := "Seasoned beef, cheese, and onions wrapped in a flour tortilla",
    calories := 430,
    customizations := ["no onions", "add lettuce", "extra cheese"],
    aliases := ["ground beef burrito", "meat burrito"],
    tags := ["beef", "cheap", "simple", "classic"] }

/-- Catalog entry (lines 122-131). -/
def beefyFiveLayerItem : MenuItem :=
  { name := "Beefy 5-Layer Burrito", category := "Burritos", price := mkRat 249 100,
    description := "Beef, cheese, beans, sour cream, and nacho cheese wrapped in two flour tortillas",
    calories := 490,
    customizations := ["no sour cream", "no beans", "extra beef"],
    aliases := ["five layer", "5 layer", "5-layer"],
    tags := ["beef", "hearty", "filling", "multiple layers", "sour cream"] }

/-- Catalog entry (lines 132-141). -/
def crunchwrapSupremeItem : MenuItem :=
  { name := "Crunchwrap Supreme", category := "Burritos", price := mkRat 449 100,
    description := "Hexagonal tortilla with beef, nacho cheese, lettuce, tomatoes, sour cream, and tostada",
    calories := 530,
    customizations := ["no sour cream", "no tomatoes", "add jalapenos"],
    aliases := ["crunch wrap", "crunchy wrap", "hexagon"],
    tags := ["crunchy", "beef", "premium", "signature", "tostada", "hexagonal"] }

/-- Catalog entry (lines 144-153). -/
def softDrinkItem : MenuItem :=
  { name := "Soft Drink", category := "Drinks", price := mkRat 229 100,
    description := "Fountain drink - Pepsi, Mountain Dew, Sierra Mist, etc.",
    calories := 150,
    customizations := ["small", "medium", "large", "no ice", "light ice"],
    aliases := ["soda", "coke", "pepsi", "fountain drink", "pop", "cola"],
    tags := ["beverage", "fountain", "carbonated", "refreshing"] }

/-- Catalog entry (lines 154-163). -/
def bajaBlastItem : MenuItem :=
  { name := "Baja Blast", category := "Drinks", price := mkRat 229 100,
    description := "Exclusive Mountain Dew tropical lime flavor",
    calories := 170,
    customizations := ["small", "medium", "large", "no ice"],
    aliases := ["baja", "blast", "blue drink", "mountain dew baja", "tropical"],
    tags := ["beverage", "exclusive", "tropical", "lime", "signature drink"] }

/-- Catalog entry (lines 164-173). -/
def bajaBlastFreezeItem : MenuItem :=
  { name := "Baja Blast Freeze", category := "Drinks", price := mkRat 269 100,
    description := "Frozen Baja Blast slush drink",
    calories := 190,
    customizations := ["regular", "large"],
    aliases := ["frozen baja", "baja slush", "blue freeze", "slushie", "frozen drink"],
    tags := ["beverage", "frozen", "slush", "cold", "dessert drink"] }

/-- Catalog entry (lines 176-185). -/
def nachosCheeseItem : MenuItem :=
  { name := "Nachos & Cheese", category := "Sides", price := mkRat 139 100,
    description := "Tortilla chips with warm nacho cheese sauce",
    calories := 220,
    customizations := ["extra cheese", "add jalapenos", "add beans"],
    aliases := ["chips and cheese", "nachos", "cheese nachos", "chips"],
    tags := ["crunchy", "cheese", "cheap", "snack", "shareable", "vegetarian"] }

/-- Catalog entry (lines 186-195). -/
def nachoFriesItem : MenuItem :=
  { name := "Nacho Fries", category := "Sides", price := mkRat 149 100,
    description := "Seasoned fries with nacho cheese dipping sauce",
    calories := 320,
    customizations := ["extra seasoning", "no seasoning", "extra cheese sauce"],
    aliases := ["fries", "french fries", "seasoned fries"],
    tags := ["fries", "cheese", "seasoned", "limited time", "popular"] }

/-- Catalog entry (lines 196-205). -/
def cinnamonTwistsItem : MenuItem :=
  { name := "Cinnamon Twists", category := "Sides", price := mkRat 100 100,
    description := "Crispy puffed corn twists dusted with cinnamon sugar",
    calories := 170,
    customizations := ["extra cinnamon"],
    aliases := ["dessert", "sweet", "twists", "cinnamon", "churros"],
    tags := ["sweet", "dessert", "cheapest", "cinnamon", "crispy", "vegetarian"] }

/-- Catalog entry (lines 208-217). -/
def cravingsBoxItem : MenuItem :=
  { name := "Cravings Box", category := "Combos", price := mkRat 500 100,
    description := "Chalupa Supreme, 5-Layer Burrito, Taco, Cinnamon Twists, and drink",
    calories := 1290,
    customizations := ["swap items", "upgrade drink"],
    aliases := ["box", "combo box", "meal deal", "5 dollar box", "$5 box"],
    tags := ["combo", "value", "deal", "complete meal", "variety", "best value"] }

/-- Catalog entry (lines 218-227). -/
def comboMealItem : MenuItem :=
  { name := "Combo Meal", category := "Combos", price := mkRat 799 100,
    description := "Any main item with a drink and side",
    calories := 800,
    customizations := ["choose main", "choose side", "choose drink"],
    aliases := ["meal", "combo", "number 1", "number 2"],
    tags := ["combo", "customizable", "meal", "drink included"] }

/-- `_load_menu_data` (lines 56-230): the full hard-coded catalog in
declaration order. -/
def menuItems : List MenuItem :=
  [crunchyTacoItem, softTacoItem, crunchyTacoSupremeItem, doritosLocosTacosItem,
   beanBurritoItem, beefBurritoItem, beefyFiveLayerItem, crunchwrapSupremeItem,
   softDrinkItem, bajaBlastItem, bajaBlastFreezeItem,
   nachosCheeseItem, nachoFriesItem, cinnamonTwistsItem,
   cravingsBoxItem, comboMealItem]

/-- The `name_to_item` dict of `_build_indices` (lines 277-279): keyed by
lowercased name, later catalog entries overwrite earlier ones. -/
def nameToItem (menu : List MenuItem) (k : String) : Option MenuItem :=
  menu.foldl (fun acc it => if strToLower it.name = k then some it else acc) none

/-- The `alias_to_item` dict (lines 287-288): keyed by lowercased alias,
later entries overwrite earlier ones. -/
def aliasToItem (menu : List MenuItem) (k : String) : Option MenuItem :=
  menu.foldl
    (fun acc it =>
      it.aliases.foldl
        (fun acc2 al => if strToLower al = k then some it else acc2) acc)
    none

/-- The `tag_to_items` dict (lines 291-294): per tag, the catalog items
carrying that tag, in declaration order (absent tags give `[]`, matching
the `word in self.tag_to_items` guard). -/
def tagToItems (menu : List MenuItem) (tag : String) : List MenuItem :=
  menu.filter (fun it => tag ∈ it.tags)

/-- `self.items_by_price` of `_build_special_indices` (line 299): the
catalog stably sorted by ascending price (`sorted` with a price key). -/
def itemsByPrice (menu : List MenuItem) : List MenuItem :=
  menu.mergeSort (fun a b => decide (a.price ≤ b.price))

/-- `self.vegetarian_items` (lines 302-303). -/
def vegetarianItems (menu : List MenuItem) : List MenuItem :=
  menu.filter (fun it => "vegetarian" ∈ it.tags ∨ "no meat" ∈ it.tags)

/-- `self.crunchy_items` (line 306). -/
def crunchyItems (menu : List MenuItem) : List MenuItem :=
  menu.filter (fun it => "crunchy" ∈ it.tags)

/-- Guard of the cheapest special query (line 316). -/
def cheapestGuard (ql : String) : Bool :=
  strContains ql "cheapest" || strContains ql "lowest price"

/-- Guard of the most-expensive special query (line 321). -/
def expensiveGuard (ql : String) : Bool :=
  strContains ql "most expensive" || strContains ql "premium"

/-- Guard of the vegetarian special query (line 326). -/
def vegetarianGuard (ql : String) : Bool :=
  strContains ql "vegetarian" || strContains ql "veggie" ||
    strContains ql "no meat"

/-- Guard of the spicy special query (line 330). -/
def spicyGuard (ql : String) : Bool :=
  strContains ql "spicy" || strContains ql "hot"

/-- Guard of the crunchy special query (line 337). -/
def crunchyGuard (ql : String) : Bool :=
  strContains ql "crunchy" || strContains ql "crispy"

/-- Disjunction of all five special-query guards: when it is false the
search reaches the exact-name / alias / tag / semantic tiers. -/
def specialGuard (ql : String) : Bool :=
  cheapestGuard ql || expensiveGuard ql || vegetarianGuard ql ||
    spicyGuard ql || crunchyGuard ql

/-- The price-ranking comprehension shared by the cheapest and
most-expensive branches (lines 318-319 and 323-324):
`SearchResult(item, 1.0 - i*0.1, "Price ranking")`. -/
def priceRankResults (l : List MenuItem) : List SearchResult :=
  l.enum.map (fun p => ⟨p.2, 1 - (p.1 : ℚ) * mkRat 1 10, "Price ranking"⟩)

/-- The tag-tier accumulation of `search_menu` (lines 351-356): for each
whitespace-separated word of the lowercased query, append that word's
tagged items, skipping items already collected. -/
def tagMatches (menu : List MenuItem) (ql : String) : List MenuItem :=
  (strWords ql).foldl
    (fun acc w =>
      (tagToItems menu w).foldl
        (fun acc2 it => if it ∈ acc2 then acc2 else acc2 ++ [it]) acc)
    []

/-- `TacoBellMenuRAG.search_menu` (lines 309-377).  `sem` abstracts the
semantic-fallback tail (lines 362-377): encoding the query with the
sentence-transformer model and ranking by cosine similarity. -/
def searchMenu (menu : List MenuItem) (sem : String → Nat → List SearchResult)
    (query : String) (topK : Nat) : List SearchResult :=
  let ql := strToLower query
  if cheapestGuard ql then
    priceRankResults ((itemsByPrice menu).take 3)
  else if expensiveGuard ql then
    priceRankResults (((itemsByPrice menu).reverse).take 3)
  else if vegetarianGuard ql then
    ((vegetarianItems menu).take topK).map
      (fun it => ⟨it, mkRat 9 10, "Vegetarian option"⟩)
  else if spicyGuard ql then
    match nameToItem menu "doritos locos tacos" with
    | some dlt => [⟨dlt, mkRat 9 10, "Has spicy option (Fiery)"⟩]
    | none => []
  else if crunchyGuard ql then
    ((crunchyItems menu).take topK).map (fun it => ⟨it, mkRat 9 10, "Crunchy item"⟩)
  else
    match nameToItem menu ql with
    | some it => [⟨it, 1, "Exact name match"⟩]
    | none =>
      match aliasToItem menu ql with
      | some it => [⟨it, mkRat 19 20, "Alias match"⟩]
      | none =>
        let matching := tagMatches menu ql
        if matching.isEmpty then sem query topK
        else (matching.take topK).map (fun it => ⟨it, mkRat 17 20, "Tag match"⟩)

/-- A semantic fallback that finds nothing, used by concrete instances. -/
def semNone : String → Nat → List SearchResult := fun _ _ => []

/-- `get_item_by_name` (lines 397-399). -/
def getItemByName (menu : List MenuItem) (nm : String) : Option MenuItem :=
  nameToItem menu (strToLower nm)

/-- The order-analysis accumulator of `get_recommendations`
(lines 407-423): presence flags per category and the running price sum
(one unit price per recognized name — quantities never reach this code). -/
structure OrderAnalysis where
  hasDrink : Bool := false
  hasSide : Bool := false
  hasMain : Bool := false
  totalPrice : ℚ := 0

/-- One step of the analysis loop (lines 414-423). -/
def analyzeStep (menu : List MenuItem) (a : OrderAnalysis) (nm : String) :
    OrderAnalysis :=
  match getItemByName menu nm with
  | none => a
  | some it =>
    { hasDrink := a.hasDrink || decide (it.category = "Drinks"),
      hasSide := a.hasSide || decide (it.category = "Sides"),
      hasMain := a.hasMain ||
        decide (it.category = "Tacos" ∨ it.category = "Burritos"),
      totalPrice := a.totalPrice + it.price }

/-- The analysis loop of `get_recommendations` over the current item
names. -/
def analyzeOrder (menu : List MenuItem) (names : List String) : OrderAnalysis :=
  names.foldl (analyzeStep menu) {}

/-- `get_recommendations` (lines 405-441): suggest the default drink when
a main is present without a drink, the default side when a main is present
without a side, a default main when no main is present, and prepend the
Cravings Box when the analysed price sum is under $5 and a main is
present; `None` lookups are filtered out at the end. -/
def getRecommendations (menu : List MenuItem) (currentItems : List String) :
    List MenuItem :=
  let a := analyzeOrder menu currentItems
  let base : List (Option MenuItem) :=
    (if a.hasMain && !a.hasDrink then [getItemByName menu "Baja Blast"] else []) ++
    (if a.hasMain && !a.hasSide then [getItemByName menu "Nacho Fries"] else []) ++
    (if !a.hasMain then [getItemByName menu "Crunchy Taco"] else [])
  let recs : List (Option MenuItem) :=
    if a.totalPrice < 5 && a.hasMain then
      match getItemByName menu "Cravings Box" with
      | some cb => some cb :: base
      | none => base
    else base
  recs.filterMap id

/-- The item names the manager hands to `get_recommendations`
(`conversation_manager_v2.py` lines 435-436): one name per order line,
quantities dropped. -/
def recommendForOrder (o : Order) : List MenuItem :=
  getRecommendations menuItems (o.items.map OrderItem.name)

-- ===================== theorems =====================

theorem addItemList_merge_single (L it : OrderItem)
    (h1 : L.name = it.name) (h2 : L.modifications = it.modifications) :
    addItemList [L] it = [{ L with quantity := L.quantity + it.quantity }] := by
  simp [addItemList, h1, h2]

theorem foldl_addItem_same_ident (nm : String) (mods : List String) :
    ∀ (its : List OrderItem) (o : Order) (L : OrderItem),
      L.name = nm → L.modifications = mods →
      (∀ it ∈ its, it.name = nm ∧ it.modifications = mods) →
      o.items = [L] →
      (its.foldl Order.addItem o).items =
        [{ L with quantity := L.quantity + (its.map OrderItem.quantity).sum }] := by
  intro its
  induction its with
  | nil =>
    intro o L hL1 hL2 _ ho
    simpa using ho
  | cons it rest ih =>
    intro o L hL1 hL2 hall ho
    have hit := hall it (by simp)
    have hname : L.name = it.name := by rw [hL1, hit.1]
    have hmods : L.modifications = it.modifications := by rw [hL2, hit.2]
    have hstep : (o.addItem it).items =
        [{ L with quantity := L.quantity + it.quantity }] := by
      simp [Order.addItem, ho, addItemList_merge_single L it hname hmods]
    have := ih (o.addItem it) { L with quantity := L.quantity + it.quantity }
      (by simpa using hL1) (by simpa using hL2)
      (fun x hx => hall x (by simp [hx])) hstep
    simpa [List.foldl_cons, Nat.add_assoc] using this

theorem addItemList_other_ident (it : OrderItem) :
    ∀ l : List OrderItem,
      (addItemList l it).filter (fun e => !(sameIdent e it)) =
        l.filter (fun e => !(sameIdent e it)) := by
  intro l
  induction l with
  | nil =>
    simp [addItemList, sameIdent]
  | cons e rest ih =>
    by_cases h : e.name = it.name ∧ e.modifications = it.modifications
    · have h1 : sameIdent e it = true := by simp [sameIdent, h]
      have h2 : sameIdent { e with quantity := e.quantity + it.quantity } it = true := by
        simpa [sameIdent] using h
      simp only [addItemList, if_pos h, List.filter_cons, h1, h2]
      simp
    · have h1 : sameIdent e it = false := by
        simp only [sameIdent, decide_eq_false_iff_not]
        exact h
      simp only [addItemList, if_neg h, List.filter_cons, h1, ih]

/-- C1: folding any nonempty sequence of `add_item` calls whose items all
share one `(name, modifications)` pair over a fresh order yields exactly
one line, carrying that pair, whose quantity is the sum of the requested
quantities; and a single `add_item` never changes the sublist of lines
whose `(name, modifications)` differs from the added item's. -/
theorem C1_addItem_merge :
    (∀ (nm : String) (mods : List String) (its : List OrderItem),
      its ≠ [] →
      (∀ it ∈ its, it.name = nm ∧ it.modifications = mods) →
      ∃ line : OrderItem,
        (its.foldl Order.addItem emptyOrder).items = [line] ∧
        line.name = nm ∧ line.modifications = mods ∧
        line.quantity = (its.map OrderItem.quantity).sum) ∧
    (∀ (o : Order) (it : OrderItem),
      (o.addItem it).items.filter (fun e => !(sameIdent e it)) =
        o.items.filter (fun e => !(sameIdent e it))) := by
  constructor
  · intro nm mods its hne hall
    match its, hne with
    | it0 :: rest, _ =>
      have h0 := hall it0 (by simp)
      have hstep : ((emptyOrder.addItem it0)).items = [it0] := by
        simp [Order.addItem, emptyOrder, addItemList]
      refine ⟨{ it0 with quantity := it0.quantity + (rest.map OrderItem.quantity).sum },
        ?_, by simpa using h0.1, by simpa using h0.2, by simp⟩
      have := foldl_addItem_same_ident nm mods rest (emptyOrder.addItem it0) it0
        h0.1 h0.2 (fun x hx => hall x (by simp [hx])) hstep
      simpa [List.foldl_cons] using this
  · intro o it
    exact addItemList_other_ident it o.items

/-- Concrete instance of C1: two adds of "Crunchy Taco" with no
modifications (quantities 1 and 2) produce a single line of quantity 3. -/
theorem C1_addItem_merge_witness :
    ([tacoLine 1, tacoLine 2].foldl Order.addItem emptyOrder).items.map
      (fun it => (it.name, it.modifications, it.quantity)) =
      [("Crunchy Taco", ([] : List String), 3)] := by
  obtain ⟨line, hitems, hname, hmods, hqty⟩ :=
    C1_addItem_merge.1 "Crunchy Taco" [] [tacoLine 1, tacoLine 2]
      (by simp) (by decide)
  rw [hitems]
  simp [hname, hmods, hqty, tacoLine]

/-- C2: after any sequence of `add_item` / `remove_item` operations on a
fresh order, `get_total` equals the sum over current lines of unit price
times quantity, and when every line has been removed the total is `0`. -/
theorem C2_total_invariant :
    ∀ ops : List OrderOp,
      (runOps ops).getTotal =
        ((runOps ops).items.map (fun it => it.price * (it.quantity : ℚ))).sum ∧
      ((runOps ops).items = [] → (runOps ops).getTotal = 0) := by
  intro ops
  constructor
  · rfl
  · intro h
    simp [Order.getTotal, h]

/-- Concrete instance of C2: add a taco then remove it; the total of the
emptied order is `0`. -/
theorem C2_total_invariant_witness :
    (runOps [OrderOp.add (tacoLine 2), OrderOp.remove "crunchy TACO"]).items =
      ([] : List OrderItem) ∧
    (runOps [OrderOp.add (tacoLine 2), OrderOp.remove "crunchy TACO"]).getTotal = 0 := by
  have h : (runOps [OrderOp.add (tacoLine 2), OrderOp.remove "crunchy TACO"]).items =
      ([] : List OrderItem) := by decide
  exact ⟨h, (C2_total_invariant [OrderOp.add (tacoLine 2),
    OrderOp.remove "crunchy TACO"]).2 h⟩

theorem removeFirstLower_none (nm : String) :
    ∀ l : List OrderItem,
      (∀ it ∈ l, strToLower it.name ≠ strToLower nm) →
      removeFirstLower l nm = none := by
  intro l
  induction l with
  | nil => intro _; rfl
  | cons e rest ih =>
    intro h
    have he : strToLower e.name ≠ strToLower nm := h e (by simp)
    simp [removeFirstLower, he, ih (fun x hx => h x (by simp [hx]))]

theorem removeFirstLower_first_match (nm : String) (x : OrderItem)
    (post : List OrderItem) :
    ∀ pre : List OrderItem,
      (∀ it ∈ pre, strToLower it.name ≠ strToLower nm) →
      strToLower x.name = strToLower nm →
      removeFirstLower (pre ++ x :: post) nm = some (pre ++ post) := by
  intro pre
  induction pre with
  | nil =>
    intro _ hx
    simp [removeFirstLower, hx]
  | cons p rest ih =>
    intro h hx
    have hp : strToLower p.name ≠ strToLower nm := h p (by simp)
    simp [removeFirstLower, hp, ih (fun y hy => h y (by simp [hy])) hx]

/-- C3: `remove_item` removes exactly the first line whose name matches
case-insensitively (earlier lines keep their order, later lines are
untouched) and returns `true`; with no match it returns `false` and leaves
the order unchanged; and the A×2 / B×1 round trip — add A (quantity 2),
add B (quantity 1, different merge identity), remove A — leaves exactly
B×1 with total equal to B's unit price. -/
theorem C3_removeItem_spec :
    (∀ (o : Order) (nm : String),
      (∀ it ∈ o.items, strToLower it.name ≠ strToLower nm) →
      o.removeItem nm = (false, o)) ∧
    (∀ (o : Order) (nm : String) (pre post : List OrderItem) (x : OrderItem),
      o.items = pre ++ x :: post →
      (∀ it ∈ pre, strToLower it.name ≠ strToLower nm) →
      strToLower x.name = strToLower nm →
      o.removeItem nm = (true, { o with items := pre ++ post })) ∧
    (∀ a b : OrderItem,
      a.quantity = 2 → b.quantity = 1 →
      ¬(b.name = a.name ∧ b.modifications = a.modifications) →
      ((emptyOrder.addItem a).addItem b).removeItem a.name =
        (true, { (emptyOrder.addItem a).addItem b with items := [b] }) ∧
      ({ (emptyOrder.addItem a).addItem b with items := [b] } : Order).getTotal = b.price) := by
  refine ⟨?_, ?_, ?_⟩
  · intro o nm h
    simp [Order.removeItem, removeFirstLower_none nm o.items h]
  · intro o nm pre post x ho hpre hx
    simp [Order.removeItem, ho, removeFirstLower_first_match nm x post pre hpre hx]
  · intro a b ha hb hne
    have hitems : ((emptyOrder.addItem a).addItem b).items = [a, b] := by
      have hid : ¬(a.name = b.name ∧ a.modifications = b.modifications) := by
        intro h
        exact hne ⟨h.1.symm, h.2.symm⟩
      simp [Order.addItem, emptyOrder, addItemList, hid]
    constructor
    · have : removeFirstLower [a, b] a.name = some [b] := by
        simpa using removeFirstLower_first_match a.name a [b] [] (by simp) rfl
      simp [Order.removeItem, hitems, this]
    · simp [Order.getTotal, OrderItem.getTotalPrice, hb]

/-- Concrete instance of C3: Crunchy Taco ×2 plus Baja Blast ×1, then
removing "Crunchy Taco", leaves exactly the Baja Blast line and a total of
its unit price 2.29. -/
theorem C3_removeItem_spec_witness :
    ((emptyOrder.addItem (tacoLine 2)).addItem (bajaLine 1)).removeItem "Crunchy Taco" =
      (true, { (emptyOrder.addItem (tacoLine 2)).addItem (bajaLine 1) with
        items := [bajaLine 1] }) ∧
    ({ (emptyOrder.addItem (tacoLine 2)).addItem (bajaLine 1) with
        items := [bajaLine 1] } : Order).getTotal = mkRat 229 100 :=
  C3_removeItem_spec.2.2 (tacoLine 2) (bajaLine 1) rfl rfl (by decide)

theorem recoveryStrategies_result (t : ErrorType) (f : ErrorContext → Bool)
    (h : recoveryStrategies t = some f) (ctx : ErrorContext) : f ctx = true := by
  cases t <;> simp [recoveryStrategies] at h <;> simp [← h]

/-- C8: `handle_error` answers with the event's explicit user-facing
message when one is set (non-empty) and with the static per-kind message
otherwise, as long as retries remain; when a recovery strategy is
registered for the kind and `retry_count < max_retries` the recovered flag
is the strategy's result, which is `true` for every recoverable kind; and
whenever `retry_count >= max_retries` the call returns not-recovered with
the escalation message, regardless of any registered strategy. -/
theorem C8_handleError_spec :
    ∀ (counts : ErrorType → Nat) (ctx : ErrorContext),
      (ctx.retryCount < ctx.maxRetries →
        (∀ s, ctx.userFacingMessage = some s → s ≠ "" →
          (handleError counts ctx).2.2 = s) ∧
        (ctx.userFacingMessage = none →
          (handleError counts ctx).2.2 =
            (userMessages ctx.errorType).getD defaultUserMessage)) ∧
      (∀ f, recoveryStrategies ctx.errorType = some f →
        ctx.retryCount < ctx.maxRetries →
        (handleError counts ctx).2.1 = f ctx ∧ f ctx = true) ∧
      (ctx.maxRetries ≤ ctx.retryCount →
        (handleError counts ctx).2.1 = false ∧
        (handleError counts ctx).2.2 = escalationMessage) := by
  intro counts ctx
  refine ⟨?_, ?_, ?_⟩
  · intro hlt
    constructor
    · intro s hs hne
      cases hstrat : recoveryStrategies ctx.errorType <;>
        simp [handleError, hstrat, hs, hne, hlt, Nat.not_le.mpr hlt]
    · intro hs
      cases hstrat : recoveryStrategies ctx.errorType <;>
        simp [handleError, hstrat, hs, hlt, Nat.not_le.mpr hlt]
  · intro f hf hlt
    refine ⟨?_, recoveryStrategies_result ctx.errorType f hf ctx⟩
    simp [handleError, hf, hlt]
  · intro hge
    have hnlt : ¬ctx.retryCount < ctx.maxRetries := Nat.not_lt.mpr hge
    cases hstrat : recoveryStrategies ctx.errorType <;>
      simp [handleError, hstrat, hnlt, hge]

/-- Concrete instance of C8: a first-try `API_TIMEOUT` event recovers with
its static message, and the same event at `retry_count = 3` escalates. -/
theorem C8_handleError_spec_witness :
    ((handleError (fun _ => 0)
        { errorType := .apiTimeout, severity := .medium,
          message := "timeout", retryCount := 0 }).2.1 = true ∧
     (handleError (fun _ => 0)
        { errorType := .apiTimeout, severity := .medium,
          message := "timeout", retryCount := 0 }).2.2 =
       "Give me just a second...") ∧
    ((handleError (fun _ => 0)
        { errorType := .apiTimeout, severity := .medium,
          message := "timeout", retryCount := 3 }).2.1 = false ∧
     (handleError (fun _ => 0)
        { errorType := .apiTimeout, severity := .medium,
          message := "timeout", retryCount := 3 }).2.2 = escalationMessage) := by
  constructor
  · constructor
    · have h := (C8_handleError_spec (fun _ => 0)
        { errorType := .apiTimeout, severity := .medium,
          message := "timeout", retryCount := 0 }).2.1
        (fun _ => true) (by simp [recoveryStrategies]) (by decide)
      simpa using h.1
    · have h := ((C8_handleError_spec (fun _ => 0)
        { errorType := .apiTimeout, severity := .medium,
          message := "timeout", retryCount := 0 }).1 (by decide)).2 rfl
      simpa [userMessages] using h
  · exact (C8_handleError_spec (fun _ => 0)
      { errorType := .apiTimeout, severity := .medium,
        message := "timeout", retryCount := 3 }).2.2 (by decide)

/-- C9: `should_escalate` does return `True` once an error kind has
occurred at least 5 times, but below that threshold, instead of returning
`False`, control reaches `error_type == ErrorType.CRITICAL` and the
nonexistent `ErrorType.CRITICAL` attribute raises `AttributeError`
(modelled as `Except.error`): the check is not raise-free. -/
theorem C9_shouldEscalate_attribute_error :
    shouldEscalate (fun _ => 0) ErrorType.apiTimeout =
      Except.error criticalAttributeError ∧
    shouldEscalate (fun t => if t = ErrorType.apiTimeout then 5 else 0)
      ErrorType.apiTimeout = Except.ok true ∧
    ∀ (counts : ErrorType → Nat) (t : ErrorType),
      counts t < 5 → shouldEscalate counts t = Except.error criticalAttributeError := by
  refine ⟨rfl, rfl, ?_⟩
  intro counts t h
  simp [shouldEscalate, Nat.not_le.mpr h]

/-- Concrete instance of C9's general clause: a kind seen 4 times is below
the threshold and the check raises rather than returning `False`. -/
theorem C9_shouldEscalate_attribute_error_witness :
    ((fun _ : ErrorType => 4) ErrorType.networkError < 5) ∧
    shouldEscalate (fun _ => 4) ErrorType.networkError =
      Except.error criticalAttributeError :=
  ⟨by decide, C9_shouldEscalate_attribute_error.2.2 (fun _ => 4)
    ErrorType.networkError (by decide)⟩

/-- C6 counterexample: the input "um" contains no member of the lexicon
the specification lists, yet `process_input` routes it to ErrorRecovery
(the code's lexicon additionally holds "uh" and "um"). -/
theorem C6_confusion_lexicon_counterexample :
    claimedConfusionLexicon.all
      (fun s => !(strContains (strToLower "um") s)) = true ∧
    detectConfusionSignals "um" = true ∧
    (processInput dummyLowConf (some ()) dummyHandle initialManagerState
        "um" 1).2.state = ConversationState.errorRecovery := by
  refine ⟨by decide, by decide, by decide⟩

/-- C6 (amended): `process_input` diverts a non-blank input of acceptable
confidence to ErrorRecovery — bypassing intent classification — exactly
when its lowercased text contains a member of the code's lexicon
{"what", "huh", "wait", "uh", "um", "confused", "don't understand",
"not sure", "i don't know"}; otherwise the turn proceeds to intent
handling untouched by the confusion heuristic. -/
theorem C6_confusion_routing :
    (∀ text : String,
      detectConfusionSignals text = true ↔
        ∃ s ∈ confusionSignals, strContains (strToLower text) s = true) ∧
    (∀ (ι : Type) (lch : ManagerState → String → ℚ → String × ManagerState)
        (di : Option ι) (h : ι → ManagerState → String × ManagerState)
        (st : ManagerState) (input : String) (conf : ℚ),
      strBlank input = false → ¬(conf < mkRat 1 2) →
      (detectConfusionSignals input = true →
        processInput lch di h st input conf =
          (suggestRecoveryPath st.state.value,
           { st with state := .errorRecovery })) ∧
      (detectConfusionSignals input = false →
        processInput lch di h st input conf = afterConfusionCheck di h st)) := by
  constructor
  · intro text
    simp [detectConfusionSignals, List.any_eq_true]
  · intro ι lch di h st input conf hblank hconf
    constructor
    · intro hdet
      simp [processInput, hblank, hconf, hdet]
    · intro hdet
      simp [processInput, hblank, hconf, hdet]

/-- Concrete instance of C6 (amended): "huh?" is diverted to ErrorRecovery
with the greeting-state recovery suggestion. -/
theorem C6_confusion_routing_witness :
    processInput dummyLowConf (some ()) dummyHandle initialManagerState
        "huh?" 1 =
      (suggestRecoveryPath ConversationState.greeting.value,
       { initialManagerState with state := ConversationState.errorRecovery }) := by
  have h := ((C6_confusion_routing.2 Unit dummyLowConf (some ()) dummyHandle
    initialManagerState "huh?" 1 (by decide) (by decide)).1 (by decide))
  simpa [initialManagerState] using h

theorem handleEmptyInput_snd (st : ManagerState) :
    (handleEmptyInput st).2 =
      { st with
          consecutiveErrors := st.consecutiveErrors + 1,
          errorCounts := (handleError st.errorCounts
            { errorType := .asrFailure, severity := .low,
              message := "No input received",
              retryCount := st.consecutiveErrors + 1 }).1 } := by
  simp only [handleEmptyInput]
  split <;> rfl

/-- C7: a blank (empty or whitespace-only) input leaves the conversation
state and the order unchanged and increments the consecutive-error
counter; once the counter has reached the threshold — in particular on the
third consecutive blank input from a fresh counter — the response is the
repeated-failure warning; and any fully successful turn (non-blank,
confident, non-confused input whose intent is obtained) resets the counter
to `0` and records the resulting state as last successful state. -/
theorem C7_empty_input_and_success :
    (∀ (ι : Type) (lch : ManagerState → String → ℚ → String × ManagerState)
        (di : Option ι) (h : ι → ManagerState → String × ManagerState)
        (st : ManagerState) (input : String) (conf : ℚ),
      strBlank input = true →
      (processInput lch di h st input conf).2.state = st.state ∧
      (processInput lch di h st input conf).2.consecutiveErrors =
        st.consecutiveErrors + 1 ∧
      (processInput lch di h st input conf).2.order = st.order) ∧
    (∀ (ι : Type) (lch : ManagerState → String → ℚ → String × ManagerState)
        (di : Option ι) (h : ι → ManagerState → String × ManagerState)
        (st : ManagerState) (input : String) (conf : ℚ),
      strBlank input = true → 2 ≤ st.consecutiveErrors →
      (processInput lch di h st input conf).1 = troubleHearingMessage) ∧
    (∀ (ι : Type) (lch : ManagerState → String → ℚ → String × ManagerState)
        (di : Option ι) (h : ι → ManagerState → String × ManagerState)
        (st : ManagerState) (input : String) (conf : ℚ),
      strBlank input = true → st.consecutiveErrors = 0 →
      (processInput lch di h
        ((processInput lch di h
          ((processInput lch di h st input conf).2) input conf).2)
        input conf).1 = troubleHearingMessage) ∧
    (∀ (ι : Type) (lch : ManagerState → String → ℚ → String × ManagerState)
        (di : Option ι) (h : ι → ManagerState → String × ManagerState)
        (st : ManagerState) (input : String) (conf : ℚ) (ir : ι),
      strBlank input = false → ¬(conf < mkRat 1 2) →
      detectConfusionSignals input = false → di = some ir →
      (processInput lch di h st input conf).2.consecutiveErrors = 0 ∧
      (processInput lch di h st input conf).2.lastSuccessfulState =
        (processInput lch di h st input conf).2.state) := by
  have hblankcase :
      ∀ (ι : Type) (lch : ManagerState → String → ℚ → String × ManagerState)
        (di : Option ι) (h : ι → ManagerState → String × ManagerState)
        (st : ManagerState) (input : String) (conf : ℚ),
        strBlank input = true →
        (processInput lch di h st input conf).2 = (handleEmptyInput st).2 := by
    intro ι lch di h st input conf hb
    simp [processInput, hb]
  have hwarn :
      ∀ (ι : Type) (lch : ManagerState → String → ℚ → String × ManagerState)
        (di : Option ι) (h : ι → ManagerState → String × ManagerState)
        (st : ManagerState) (input : String) (conf : ℚ),
        strBlank input = true → 2 ≤ st.consecutiveErrors →
        (processInput lch di h st input conf).1 = troubleHearingMessage := by
    intro ι lch di h st input conf hb hge
    have h3 : maxConsecutiveErrors ≤ st.consecutiveErrors + 1 := by
      simp only [maxConsecutiveErrors]
      omega
    simp [processInput, hb, handleEmptyInput, h3]
  refine ⟨?_, hwarn, ?_, ?_⟩
  · intro ι lch di h st input conf hb
    rw [hblankcase ι lch di h st input conf hb, handleEmptyInput_snd]
    exact ⟨rfl, rfl, rfl⟩
  · intro ι lch di h st input conf hb h0
    apply hwarn ι lch di h _ input conf hb
    rw [hblankcase ι lch di h _ input conf hb, handleEmptyInput_snd]
    rw [hblankcase ι lch di h st input conf hb, handleEmptyInput_snd]
    simp [h0]
  · intro ι lch di h st input conf ir hb hconf hdet hdi
    subst hdi
    simp [processInput, hb, hconf, hdet, afterConfusionCheck]

/-- Concrete instance of C7: from a fresh manager, a blank input keeps the
state and bumps the counter; the third blank input warns about repeated
failure; and a successful "bean burrito" turn resets the counter and
records the new state. -/
theorem C7_empty_input_and_success_witness :
    ((processInput dummyLowConf (some ()) dummyHandle initialManagerState
        "  " 1).2.state = initialManagerState.state ∧
     (processInput dummyLowConf (some ()) dummyHandle initialManagerState
        "  " 1).2.consecutiveErrors = 1) ∧
    (processInput dummyLowConf (some ()) dummyHandle
      ((processInput dummyLowConf (some ()) dummyHandle
        ((processInput dummyLowConf (some ()) dummyHandle initialManagerState
          "  " 1).2) "  " 1).2) "  " 1).1 = troubleHearingMessage ∧
    ((processInput dummyLowConf (some ()) dummyHandle initialManagerState
        "bean burrito" 1).2.consecutiveErrors = 0 ∧
     (processInput dummyLowConf (some ()) dummyHandle initialManagerState
        "bean burrito" 1).2.lastSuccessfulState =
       (processInput dummyLowConf (some ()) dummyHandle initialManagerState
        "bean burrito" 1).2.state) := by
  have h1 := C7_empty_input_and_success.1 Unit dummyLowConf (some ())
    dummyHandle initialManagerState "  " 1 (by decide)
  have h3 := C7_empty_input_and_success.2.2.1 Unit dummyLowConf (some ())
    dummyHandle initialManagerState "  " 1 (by decide) (by decide)
  have h4 := C7_empty_input_and_success.2.2.2 Unit dummyLowConf (some ())
    dummyHandle initialManagerState "bean burrito" 1 () (by decide)
    (by decide) (by decide) rfl
  exact ⟨⟨h1.1, h1.2.1⟩, h3, h4⟩

theorem itemsByPrice_pairwise (menu : List MenuItem) :
    List.Pairwise (fun a b : MenuItem => a.price ≤ b.price) (itemsByPrice menu) := by
  have h := @List.sorted_mergeSort MenuItem
    (fun a b : MenuItem => decide (a.price ≤ b.price))
    (fun a b c h1 h2 => by
      simp only [decide_eq_true_eq] at h1 h2 ⊢
      exact le_trans h1 h2)
    (fun a b => by
      simp only [Bool.or_eq_true, decide_eq_true_eq]
      exact le_total a.price b.price)
    menu
  exact h.imp (fun hab => by simpa using hab)

theorem itemsByPrice_perm (menu : List MenuItem) : (itemsByPrice menu).Perm menu :=
  List.mergeSort_perm menu _

theorem priceRankResults_map_item (l : List MenuItem) :
    (priceRankResults l).map (fun r => r.item) = l := by
  simp only [priceRankResults, List.map_map]
  exact List.enum_map_snd l

theorem priceRankResults_reason (l : List MenuItem) :
    ∀ r ∈ priceRankResults l, r.reason = "Price ranking" := by
  intro r hr
  simp only [priceRankResults, List.mem_map] at hr
  obtain ⟨p, _, rfl⟩ := hr
  rfl

theorem priceRankResults_scores (a b c : MenuItem) :
    (priceRankResults [a, b, c]).map (fun r => r.score) =
      [1, mkRat 9 10, mkRat 8 10] := by
  simp only [priceRankResults, List.enum, List.map_map]
  norm_num [List.enumFrom, Rat.mkRat_eq_div]

theorem itemsByPrice_map_price_eq_of_perm (menu menu2 : List MenuItem)
    (h : menu.Perm menu2) :
    (itemsByPrice menu).map MenuItem.price =
      (itemsByPrice menu2).map MenuItem.price := by
  have hperm : ((itemsByPrice menu).map MenuItem.price).Perm
      ((itemsByPrice menu2).map MenuItem.price) :=
    List.Perm.map MenuItem.price
      (((itemsByPrice_perm menu).trans h).trans (itemsByPrice_perm menu2).symm)
  exact List.eq_of_perm_of_sorted hperm
    ((itemsByPrice_pairwise menu).map MenuItem.price (fun a b hab => hab))
    ((itemsByPrice_pairwise menu2).map MenuItem.price (fun a b hab => hab))

theorem priceRankResults_map_price (l : List MenuItem) :
    (priceRankResults l).map (fun r => r.item.price) = l.map MenuItem.price := by
  have h : ((priceRankResults l).map (fun r => r.item)).map MenuItem.price =
      (priceRankResults l).map (MenuItem.price ∘ fun r => r.item) :=
    List.map_map MenuItem.price (fun r => r.item) (priceRankResults l)
  rw [priceRankResults_map_item] at h
  simpa using h.symm

/-- C4 (amended): on any catalog, a query containing "cheapest" or
"lowest price" is answered from the price-ascending index: every result
carries reason "Price ranking", result prices are non-decreasing, the
synthetic scores are 1.0, 0.9, 0.8 (once the catalog has at least 3
items), and the returned items are lowest-priced: the rest of the catalog
is a permutation complement in which every item costs at least as much.  A
query containing "most expensive" or "premium" is answered the same way
from the descending end — provided it does not also contain a cheapest
keyword, since the cheapest branch is checked first.  For both query
kinds the returned price sequence is invariant under permuting the
catalog's declaration order. -/
theorem C4_price_ranking :
    ∀ (menu : List MenuItem) (sem : String → Nat → List SearchResult)
      (q : String) (topK : Nat),
      (cheapestGuard (strToLower q) = true →
        (∀ r ∈ searchMenu menu sem q topK, r.reason = "Price ranking") ∧
        ((searchMenu menu sem q topK).map (fun r => r.item.price)).Pairwise
          (· ≤ ·) ∧
        (3 ≤ menu.length →
          (searchMenu menu sem q topK).map (fun r => r.score) =
            [1, mkRat 9 10, mkRat 8 10]) ∧
        (∃ rest,
          menu.Perm ((searchMenu menu sem q topK).map (fun r => r.item) ++ rest) ∧
          ∀ x ∈ (searchMenu menu sem q topK).map (fun r => r.item),
            ∀ y ∈ rest, x.price ≤ y.price)) ∧
      (expensiveGuard (strToLower q) = true →
        cheapestGuard (strToLower q) = false →
        (∀ r ∈ searchMenu menu sem q topK, r.reason = "Price ranking") ∧
        ((searchMenu menu sem q topK).map (fun r => r.item.price)).Pairwise
          (fun x y => y ≤ x) ∧
        (3 ≤ menu.length →
          (searchMenu menu sem q topK).map (fun r => r.score) =
            [1, mkRat 9 10, mkRat 8 10]) ∧
        (∃ rest,
          menu.Perm ((searchMenu menu sem q topK).map (fun r => r.item) ++ rest) ∧
          ∀ x ∈ (searchMenu menu sem q topK).map (fun r => r.item),
            ∀ y ∈ rest, y.price ≤ x.price)) ∧
      (∀ menu2 : List MenuItem, menu.Perm menu2 →
        (cheapestGuard (strToLower q) = true ∨
          expensiveGuard (strToLower q) = true) →
        (searchMenu menu sem q topK).map (fun r => r.item.price) =
          (searchMenu menu2 sem q topK).map (fun r => r.item.price)) := by
  intro menu sem q topK
  refine ⟨?_, ?_, ?_⟩
  · intro hc
    have hres : searchMenu menu sem q topK =
        priceRankResults ((itemsByPrice menu).take 3) := by
      simp [searchMenu, hc]
    rw [hres]
    refine ⟨priceRankResults_reason _, ?_, ?_, ?_⟩
    · rw [priceRankResults_map_price, List.map_take]
      exact List.Pairwise.sublist (List.take_sublist 3 _)
        ((itemsByPrice_pairwise menu).map MenuItem.price (fun a b hab => hab))
    · intro hlen
      have hlen3 : ((itemsByPrice menu).take 3).length = 3 := by
        simp [List.length_take, itemsByPrice, List.length_mergeSort]
        omega
      obtain ⟨a, b, c, habc⟩ := List.length_eq_three.mp hlen3
      rw [habc]
      exact priceRankResults_scores a b c
    · refine ⟨(itemsByPrice menu).drop 3, ?_, ?_⟩
      · rw [priceRankResults_map_item, List.take_append_drop]
        exact (itemsByPrice_perm menu).symm
      · intro x hx y hy
        have hpw := itemsByPrice_pairwise menu
        rw [← List.take_append_drop 3 (itemsByPrice menu)] at hpw
        rw [priceRankResults_map_item] at hx
        exact (List.pairwise_append.mp hpw).2.2 x hx y hy
  · intro he hc
    have hres : searchMenu menu sem q topK =
        priceRankResults (((itemsByPrice menu).reverse).take 3) := by
      simp [searchMenu, hc, he]
    have hpwrev : List.Pairwise (fun a b : MenuItem => b.price ≤ a.price)
        ((itemsByPrice menu).reverse) :=
      List.pairwise_reverse.mpr (itemsByPrice_pairwise menu)
    rw [hres]
    refine ⟨priceRankResults_reason _, ?_, ?_, ?_⟩
    · rw [priceRankResults_map_price, List.map_take]
      exact List.Pairwise.sublist (List.take_sublist 3 _)
        (hpwrev.map MenuItem.price (fun a b hab => hab))
    · intro hlen
      have hlen3 : (((itemsByPrice menu).reverse).take 3).length = 3 := by
        simp [List.length_take, itemsByPrice, List.length_mergeSort]
        omega
      obtain ⟨a, b, c, habc⟩ := List.length_eq_three.mp hlen3
      rw [habc]
      exact priceRankResults_scores a b c
    · refine ⟨((itemsByPrice menu).reverse).drop 3, ?_, ?_⟩
      · rw [priceRankResults_map_item, List.take_append_drop]
        exact ((itemsByPrice_perm menu).symm).trans
          (List.reverse_perm (itemsByPrice menu)).symm
      · intro x hx y hy
        rw [← List.take_append_drop 3 ((itemsByPrice menu).reverse)] at hpwrev
        rw [priceRankResults_map_item] at hx
        exact (List.pairwise_append.mp hpwrev).2.2 x hx y hy
  · intro menu2 hperm hguard
    have hpr := itemsByPrice_map_price_eq_of_perm menu menu2 hperm
    by_cases hc : cheapestGuard (strToLower q) = true
    · have h1 : searchMenu menu sem q topK =
          priceRankResults ((itemsByPrice menu).take 3) := by
        simp [searchMenu, hc]
      have h2 : searchMenu menu2 sem q topK =
          priceRankResults ((itemsByPrice menu2).take 3) := by
        simp [searchMenu, hc]
      rw [h1, h2, priceRankResults_map_price, priceRankResults_map_price,
        List.map_take, List.map_take, hpr]
    · have he : expensiveGuard (strToLower q) = true := by
        rcases hguard with h | h
        · exact absurd h hc
        · exact h
      have h1 : searchMenu menu sem q topK =
          priceRankResults (((itemsByPrice menu).reverse).take 3) := by
        simp [searchMenu, hc, he]
      have h2 : searchMenu menu2 sem q topK =
          priceRankResults (((itemsByPrice menu2).reverse).take 3) := by
        simp [searchMenu, hc, he]
      rw [h1, h2, priceRankResults_map_price, priceRankResults_map_price,
        List.map_take, List.map_take, List.map_reverse, List.map_reverse, hpr]

unseal Rat.sub Rat.mul List.merge List.mergeSort in
/-- C4 counterexample: the query "cheapest most expensive" contains
"most expensive", yet the search answers from the cheapest branch (checked
first): the returned prices are the three lowest, in ascending order, each
strictly below the price of the Combo Meal, a catalog item — so the
claimed "3 highest-priced items in non-increasing price order" fails. -/
theorem C4_price_ranking_counterexample :
    expensiveGuard (strToLower "cheapest most expensive") = true ∧
    (searchMenu menuItems semNone "cheapest most expensive" 3).map
      (fun r => r.item.price) = [mkRat 100 100, mkRat 129 100, mkRat 139 100] ∧
    comboMealItem ∈ menuItems ∧
    (searchMenu menuItems semNone "cheapest most expensive" 3).all
      (fun r => decide (r.item.price < comboMealItem.price)) = true := by
  refine ⟨by decide, by decide, by decide, by decide⟩

/-- Concrete instance of C4: on the real catalog, "cheapest" yields
non-decreasing result prices with synthetic scores 1.0, 0.9, 0.8. -/
theorem C4_price_ranking_witness :
    ((searchMenu menuItems semNone "cheapest" 3).map
      (fun r => r.item.price)).Pairwise (· ≤ ·) ∧
    (searchMenu menuItems semNone "cheapest" 3).map (fun r => r.score) =
      [1, mkRat 9 10, mkRat 8 10] := by
  have h := (C4_price_ranking menuItems semNone "cheapest" 3).1 (by decide)
  exact ⟨h.2.1, h.2.2.1 (by decide)⟩

/-- C5 counterexample: take Crunchy Taco as the target item.  The query
"crunchy taco" matches it by exact (lowercased) name, but the crunchy
special branch preempts the exact-name tier and the returned top score is
0.9 — strictly below the 0.95 an alias query ("hard taco") earns for the
same item, refuting "exact name (1.0) > alias (0.95)" for this target. -/
theorem C5_tier_scores_counterexample :
    nameToItem menuItems (strToLower "crunchy taco") = some crunchyTacoItem ∧
    (searchMenu menuItems semNone "crunchy taco" 3).map (fun r => r.score) =
      [mkRat 9 10, mkRat 9 10, mkRat 9 10] ∧
    (searchMenu menuItems semNone "crunchy taco" 3).head?.map
      (fun r => r.item) = some crunchyTacoItem ∧
    searchMenu menuItems semNone "hard taco" 3 =
      [⟨crunchyTacoItem, mkRat 19 20, "Alias match"⟩] ∧
    mkRat 9 10 < mkRat 19 20 := by
  refine ⟨by decide, by decide, by decide, by decide, by decide⟩

/-- C5 (amended): for a query that triggers no special-query branch, the
remaining tiers short-circuit in order with fixed scores 1.0 > 0.95 >
0.85: an exact lowercased-name match answers alone with score 1.0, never
consulting the alias, tag or semantic tiers; failing that, an alias match
answers alone with 0.95; failing that, a non-empty tag tier answers with
0.85 per result; and the semantic fallback is consulted only when all
three tiers produce nothing (independence from `sem` in the first three
cases is expressed by quantifying over it). -/
theorem C5_tier_precedence :
    ∀ (menu : List MenuItem) (q : String) (topK : Nat),
      specialGuard (strToLower q) = false →
      ((1 : ℚ) > mkRat 19 20 ∧ (mkRat 19 20 : ℚ) > mkRat 17 20) ∧
      (∀ (sem : String → Nat → List SearchResult) (it : MenuItem),
        nameToItem menu (strToLower q) = some it →
        searchMenu menu sem q topK = [⟨it, 1, "Exact name match"⟩]) ∧
      (∀ (sem : String → Nat → List SearchResult) (it : MenuItem),
        nameToItem menu (strToLower q) = none →
        aliasToItem menu (strToLower q) = some it →
        searchMenu menu sem q topK = [⟨it, mkRat 19 20, "Alias match"⟩]) ∧
      (∀ sem : String → Nat → List SearchResult,
        nameToItem menu (strToLower q) = none →
        aliasToItem menu (strToLower q) = none →
        tagMatches menu (strToLower q) ≠ [] →
        searchMenu menu sem q topK =
          ((tagMatches menu (strToLower q)).take topK).map
            (fun it => ⟨it, mkRat 17 20, "Tag match"⟩)) ∧
      (∀ sem : String → Nat → List SearchResult,
        nameToItem menu (strToLower q) = none →
        aliasToItem menu (strToLower q) = none →
        tagMatches menu (strToLower q) = [] →
        searchMenu menu sem q topK = sem q topK) := by
  intro menu q topK hspec
  simp only [specialGuard, Bool.or_eq_false_iff] at hspec
  obtain ⟨⟨⟨⟨hc, he⟩, hv⟩, hs⟩, hcr⟩ := hspec
  refine ⟨⟨by decide, by decide⟩, ?_, ?_, ?_, ?_⟩
  · intro sem it hname
    simp [searchMenu, hc, he, hv, hs, hcr, hname]
  · intro sem it hname halias
    simp [searchMenu, hc, he, hv, hs, hcr, hname, halias]
  · intro sem hname halias htag
    have htag2 : (tagMatches menu (strToLower q)).isEmpty = false := by
      simpa [List.isEmpty_iff] using htag
    simp [searchMenu, hc, he, hv, hs, hcr, hname, halias, htag2]
  · intro sem hname halias htag
    simp [searchMenu, hc, he, hv, hs, hcr, hname, halias, htag, List.isEmpty_iff]

/-- Concrete instance of C5 (amended): "bean burrito" matches by exact
name and answers alone with score 1.0, for the empty semantic fallback. -/
theorem C5_tier_precedence_witness :
    searchMenu menuItems semNone "bean burrito" 3 =
      [⟨beanBurritoItem, 1, "Exact name match"⟩] :=
  (C5_tier_precedence menuItems "bean burrito" 3 (by decide)).2.1
    semNone beanBurritoItem (by decide)

theorem analyzeOrder_foldl_total (menu : List MenuItem) :
    ∀ (names : List String) (a : OrderAnalysis),
      (names.foldl (analyzeStep menu) a).totalPrice =
        a.totalPrice +
          (names.filterMap
            (fun nm => (getItemByName menu nm).map MenuItem.price)).sum := by
  intro names
  induction names with
  | nil => intro a; simp
  | cons nm rest ih =>
    intro a
    cases hlook : getItemByName menu nm with
    | none => simp [List.foldl_cons, analyzeStep, hlook, ih]
    | some it =>
      simp [List.foldl_cons, analyzeStep, hlook, ih, add_assoc]

/-- C10 (amended): for every list of current line names, the analysed
running total is the sum of one unit price per recognized name — the
manager passes one name per order line, so quantities are ignored — and
`get_recommendations` suggests the default drink exactly when a main item
is present without a drink, the default side exactly when a main is
present without a side, the default main exactly when no main is present,
and prepends the Cravings Box exactly when that quantity-blind running
total is under $5.00 and a main is present. -/
theorem C10_recommendations :
    ∀ names : List String,
      (analyzeOrder menuItems names).totalPrice =
        (names.filterMap
          (fun nm => (getItemByName menuItems nm).map MenuItem.price)).sum ∧
      (bajaBlastItem ∈ getRecommendations menuItems names ↔
        ((analyzeOrder menuItems names).hasMain = true ∧
         (analyzeOrder menuItems names).hasDrink = false)) ∧
      (nachoFriesItem ∈ getRecommendations menuItems names ↔
        ((analyzeOrder menuItems names).hasMain = true ∧
         (analyzeOrder menuItems names).hasSide = false)) ∧
      (crunchyTacoItem ∈ getRecommendations menuItems names ↔
        (analyzeOrder menuItems names).hasMain = false) ∧
      ((getRecommendations menuItems names).head? = some cravingsBoxItem ↔
        ((analyzeOrder menuItems names).totalPrice < 5 ∧
         (analyzeOrder menuItems names).hasMain = true)) := by
  intro names
  have hbaja : getItemByName menuItems "Baja Blast" = some bajaBlastItem := by decide
  have hfries : getItemByName menuItems "Nacho Fries" = some nachoFriesItem := by decide
  have htaco : getItemByName menuItems "Crunchy Taco" = some crunchyTacoItem := by decide
  have hbox : getItemByName menuItems "Cravings Box" = some cravingsBoxItem := by decide
  have hne1 : bajaBlastItem ≠ cravingsBoxItem := by decide
  have hne2 : bajaBlastItem ≠ nachoFriesItem := by decide
  have hne3 : bajaBlastItem ≠ crunchyTacoItem := by decide
  have hne4 : nachoFriesItem ≠ cravingsBoxItem := by decide
  have hne5 : nachoFriesItem ≠ crunchyTacoItem := by decide
  have hne6 : crunchyTacoItem ≠ cravingsBoxItem := by decide
  constructor
  · simpa using analyzeOrder_foldl_total menuItems names {}
  · cases hm : (analyzeOrder menuItems names).hasMain <;>
      cases hd : (analyzeOrder menuItems names).hasDrink <;>
      cases hside : (analyzeOrder menuItems names).hasSide <;>
      by_cases htp : (analyzeOrder menuItems names).totalPrice < 5 <;>
      simp [getRecommendations, hm, hd, hside, htp, hbaja, hfries, htaco, hbox,
        hne1, hne2, hne3, hne4, hne5, hne6, hne1.symm, hne2.symm, hne3.symm,
        hne4.symm, hne5.symm, hne6.symm]

unseal Rat.add Rat.mul in
/-- C10 counterexample: an order holding the single line Crunchy Taco ×4
has subtotal 4 × $1.49 = $5.96, not below the $5.00 threshold, yet the
recommendation list is still headed by the Cravings Box value combo: the
manager passes only the line names, so the quantity never enters the
subtotal the code compares against the threshold. -/
theorem C10_recommendations_counterexample :
    ({ items := [tacoLine 4] } : Order).getTotal = mkRat 596 100 ∧
    ¬(mkRat 596 100 < 5) ∧
    recommendForOrder { items := [tacoLine 4] } =
      [cravingsBoxItem, bajaBlastItem, nachoFriesItem] ∧
    (recommendForOrder { items := [tacoLine 4] }).head? = some cravingsBoxItem := by
  refine ⟨by decide, by decide, by decide, by decide⟩
